import Mathlib

/-!
Verification of the mediadev backend against its specification.

The definitions below are a shallow embedding of the TypeScript sources:
the OpenverseAPI upstream client (token caching and retry), the search
controller (media search merge, search history CRUD), the auth controller
(registration, login), the User model (password hooks, toJSON) and the
authentication middleware. External collaborators (axios, the database,
jsonwebtoken, bcryptjs) enter as explicit parameters or as models of
their documented contracts; everything else is translated directly from
the source files.
-/

namespace MediaDev

/-! Embedding of server/src/services/openverseService.ts -/

/-- Truthiness of an optional string as JavaScript sees it: an absent
value and the empty string are falsy, every other string is truthy. -/
def strTruthy : Option String → Bool
  | none => false
  | some s => !(s == "")

/-- Error thrown by getAccessToken when the token endpoint is unreachable
or rejects the credentials. -/
inductive AuthErr where
  | authFailed
  deriving DecidableEq, Repr

/-- Mutable token state of the OpenverseAPI class instance: the fields
accessToken (initially null) and tokenExpiresAt (milliseconds since the
epoch, initially 0). -/
structure TokenState where
  accessToken : Option String
  tokenExpiresAt : Int
  deriving DecidableEq, Repr

/-- Result of one call to getAccessToken: the returned token or error,
the token state after the call, and how many token exchanges against the
auth endpoint were performed (the network calls). -/
structure TokenOut where
  result : Except AuthErr String
  state : TokenState
  exchanges : Nat
  deriving Repr

/-- Embedding of OpenverseAPI.getAccessToken. The network exchange done
through axios.post is a parameter: fetch is what the auth endpoint would
answer, either an access_token together with expires_in (seconds), or a
failure. now is Date.now() in milliseconds. The source returns the cached
token when it is truthy and now is strictly below tokenExpiresAt;
otherwise it exchanges once and caches the new token with expiry
now + expires_in * 1000 - 300000 (a five minute safety margin). -/
def getAccessToken (st : TokenState) (now : Int)
    (fetch : Except Unit (String × Int)) : TokenOut :=
  if strTruthy st.accessToken && decide (now < st.tokenExpiresAt) then
    { result := Except.ok (st.accessToken.getD ""), state := st, exchanges := 0 }
  else
    match fetch with
    | Except.ok (tok, expiresIn) =>
        { result := Except.ok tok
          state := { accessToken := some tok
                     tokenExpiresAt := now + expiresIn * 1000 - 300000 }
          exchanges := 1 }
    | Except.error _ =>
        { result := Except.error AuthErr.authFailed, state := st, exchanges := 1 }

/-- Outcome of one throttledRequest call as axios reports it: success
with data, an HTTP error response carrying a status and an optional
detail field, or a failure with no response object at all. -/
inductive HttpOutcome (T : Type) where
  | ok (data : T)
  | httpErr (status : Nat) (detail : Option String)
  | netErr
  deriving DecidableEq, Repr

/-- Errors a makeRequest call can propagate: the authFailed error from
getAccessToken, the wrapped Openverse API error built when a non-retried
response has a truthy detail, or the original error rethrown (with or
without a response object). -/
inductive ReqError where
  | authFailed
  | apiDetailErr (status : Nat) (detail : String)
  | rethrownHttp (status : Nat) (detail : Option String)
  | rethrownNet
  deriving DecidableEq, Repr

/-- HTTP status carried by a propagated makeRequest error, when any. -/
def ReqError.statusOf : ReqError → Option Nat
  | authFailed => none
  | apiDetailErr s _ => some s
  | rethrownHttp s _ => some s
  | rethrownNet => none

/-- Error detail carried by a propagated makeRequest error, when any. -/
def ReqError.detailOf : ReqError → Option String
  | authFailed => none
  | apiDetailErr _ d => some d
  | rethrownHttp _ d => d
  | rethrownNet => none

/-- Result of one call to makeRequest: the data or propagated error, the
token state afterwards, how many throttledRequest calls were issued and
how many token exchanges were performed. -/
structure ReqOut (T : Type) where
  result : Except ReqError T
  state : TokenState
  throttledCalls : Nat
  exchanges : Nat
  deriving Repr

/-- Embedding of OpenverseAPI.makeRequest. fetch1 feeds the token
exchange of the initial createAuthenticatedConfig, fetch2 the one after a
401/403 response clears the cached token; att1 and att2 are what the
first and second throttledRequest calls would answer. The source catches
an error of the first call: on status 401 or 403 it sets accessToken to
null, re-authenticates and retries once, returning the retry data and
rethrowing a retry failure as is; on any other status it throws a wrapped
Openverse API error when the response carries a truthy detail, and
rethrows the original error otherwise. -/
def makeRequest {T : Type} (st : TokenState) (now : Int)
    (fetch1 fetch2 : Except Unit (String × Int))
    (att1 att2 : HttpOutcome T) : ReqOut T :=
  let auth1 := getAccessToken st now fetch1
  match auth1.result with
  | Except.error _ =>
      { result := Except.error ReqError.authFailed, state := auth1.state,
        throttledCalls := 0, exchanges := auth1.exchanges }
  | Except.ok _ =>
      match att1 with
      | HttpOutcome.ok d =>
          { result := Except.ok d, state := auth1.state,
            throttledCalls := 1, exchanges := auth1.exchanges }
      | HttpOutcome.httpErr status detail =>
          if status == 401 || status == 403 then
            let cleared : TokenState := { auth1.state with accessToken := none }
            let auth2 := getAccessToken cleared now fetch2
            match auth2.result with
            | Except.error _ =>
                { result := Except.error ReqError.authFailed, state := auth2.state,
                  throttledCalls := 1, exchanges := auth1.exchanges + auth2.exchanges }
            | Except.ok _ =>
                match att2 with
                | HttpOutcome.ok d =>
                    { result := Except.ok d, state := auth2.state,
                      throttledCalls := 2, exchanges := auth1.exchanges + auth2.exchanges }
                | HttpOutcome.httpErr s2 d2 =>
                    { result := Except.error (ReqError.rethrownHttp s2 d2),
                      state := auth2.state,
                      throttledCalls := 2, exchanges := auth1.exchanges + auth2.exchanges }
                | HttpOutcome.netErr =>
                    { result := Except.error ReqError.rethrownNet, state := auth2.state,
                      throttledCalls := 2, exchanges := auth1.exchanges + auth2.exchanges }
          else if strTruthy detail then
            { result := Except.error (ReqError.apiDetailErr status (detail.getD "")),
              state := auth1.state,
              throttledCalls := 1, exchanges := auth1.exchanges }
          else
            { result := Except.error (ReqError.rethrownHttp status detail),
              state := auth1.state,
              throttledCalls := 1, exchanges := auth1.exchanges }
      | HttpOutcome.netErr =>
          { result := Except.error ReqError.rethrownNet, state := auth1.state,
            throttledCalls := 1, exchanges := auth1.exchanges }

/-- C1: getAccessToken returns the cached token and performs no network
call whenever the current time is strictly before the cached expiry;
otherwise it performs exactly one token exchange and caches the result
with expiry computed as the issue time plus the returned ttl (converted
to milliseconds) minus the five minute safety margin, so that a second
call strictly before that expiry performs no network call. -/
theorem C1_token_cache (st : TokenState) (now : Int)
    (fetch : Except Unit (String × Int)) :
    (∀ tok, st.accessToken = some tok → tok ≠ "" → now < st.tokenExpiresAt →
      getAccessToken st now fetch = { result := Except.ok tok, state := st, exchanges := 0 })
    ∧ (∀ ntok ttl, ¬(strTruthy st.accessToken = true ∧ now < st.tokenExpiresAt) →
        fetch = Except.ok (ntok, ttl) →
        getAccessToken st now fetch =
          { result := Except.ok ntok
            state := { accessToken := some ntok
                       tokenExpiresAt := now + ttl * 1000 - 300000 }
            exchanges := 1 })
    ∧ (∀ ntok ttl nextNow fetch2,
        ¬(strTruthy st.accessToken = true ∧ now < st.tokenExpiresAt) →
        fetch = Except.ok (ntok, ttl) → ntok ≠ "" →
        nextNow < now + ttl * 1000 - 300000 →
        (getAccessToken (getAccessToken st now fetch).state nextNow fetch2).exchanges = 0
        ∧ (getAccessToken (getAccessToken st now fetch).state nextNow fetch2).result
            = Except.ok ntok) := by
  refine ⟨?_, ?_, ?_⟩
  · intro tok h1 h2 h3
    simp [getAccessToken, strTruthy, h1, h2, h3]
  · intro ntok ttl hc hf
    subst hf
    unfold getAccessToken
    rw [if_neg]
    simpa [Bool.and_eq_true, decide_eq_true_eq] using hc
  · intro ntok ttl nextNow fetch2 hc hf hne hlt
    have hstep : getAccessToken st now fetch =
        { result := Except.ok ntok
          state := { accessToken := some ntok
                     tokenExpiresAt := now + ttl * 1000 - 300000 }
          exchanges := 1 } := by
      subst hf
      unfold getAccessToken
      rw [if_neg]
      simpa [Bool.and_eq_true, decide_eq_true_eq] using hc
    rw [hstep]
    constructor
    · simp [getAccessToken, strTruthy, hne, hlt]
    · simp [getAccessToken, strTruthy, hne, hlt]

/-- Witness for C1 at concrete inputs: a cold state fetches once, and a
second call within the validity window performs no exchange. -/
theorem C1_token_cache_witness :
    getAccessToken { accessToken := none, tokenExpiresAt := 0 } 0
        (Except.ok ("tokA", 3600)) =
      { result := Except.ok "tokA"
        state := { accessToken := some "tokA", tokenExpiresAt := 3300000 }
        exchanges := 1 }
    ∧ (getAccessToken
        (getAccessToken { accessToken := none, tokenExpiresAt := 0 } 0
          (Except.ok ("tokA", 3600))).state 1000 (Except.ok ("tokB", 3600))).exchanges = 0 := by
  have h := C1_token_cache { accessToken := none, tokenExpiresAt := 0 } 0
    (Except.ok ("tokA", 3600))
  refine ⟨?_, ?_⟩
  · have h2 := h.2.1 "tokA" 3600 (by simp [strTruthy]) rfl
    simpa using h2
  · exact (h.2.2 "tokA" 3600 1000 (Except.ok ("tokB", 3600))
      (by simp [strTruthy]) rfl (by decide) (by decide)).1

/-- C2: a request whose first attempt answers 401 or 403 invalidates the
cached token, obtains a fresh one with exactly one additional exchange,
and retries exactly once (two throttled calls in total); a successful
retry returns its data, and a retry that fails with an HTTP response
propagates as an error carrying the retry status and its error detail,
so two consecutive 401 responses surface as an upstream error. -/
theorem C2_retry_once {T : Type} (st : TokenState) (now : Int)
    (fetch1 : Except Unit (String × Int)) (tk1 t2 : String) (ttl2 : Int)
    (s1 : Nat) (d1 : Option String) (att2 : HttpOutcome T)
    (hs : s1 = 401 ∨ s1 = 403)
    (h1 : (getAccessToken st now fetch1).result = Except.ok tk1) :
    (makeRequest st now fetch1 (Except.ok (t2, ttl2))
        (HttpOutcome.httpErr s1 d1) att2).throttledCalls = 2
    ∧ (makeRequest st now fetch1 (Except.ok (t2, ttl2))
        (HttpOutcome.httpErr s1 d1) att2).exchanges
        = (getAccessToken st now fetch1).exchanges + 1
    ∧ (makeRequest st now fetch1 (Except.ok (t2, ttl2))
        (HttpOutcome.httpErr s1 d1) att2).state.accessToken = some t2
    ∧ (∀ d, att2 = HttpOutcome.ok d →
        (makeRequest st now fetch1 (Except.ok (t2, ttl2))
          (HttpOutcome.httpErr s1 d1) att2).result = Except.ok d)
    ∧ (∀ s2 d2, att2 = HttpOutcome.httpErr s2 d2 →
        (makeRequest st now fetch1 (Except.ok (t2, ttl2))
          (HttpOutcome.httpErr s1 d1) att2).result
            = Except.error (ReqError.rethrownHttp s2 d2)
        ∧ (ReqError.rethrownHttp s2 d2).statusOf = some s2
        ∧ (ReqError.rethrownHttp s2 d2).detailOf = d2) := by
  have hcond : (s1 == 401 || s1 == 403) = true := by
    rcases hs with h | h <;> simp [h]
  simp only [makeRequest]
  revert h1
  generalize getAccessToken st now fetch1 = A
  obtain ⟨res1, st1, n1⟩ := A
  intro h1
  change res1 = Except.ok tk1 at h1
  subst h1
  simp only [hcond, getAccessToken, strTruthy]
  cases att2 <;> simp [ReqError.statusOf, ReqError.detailOf]

/-- Witness for C2: with a cold token state, a 401 on the first attempt
followed by a 401 on the retry yields two throttled calls and an error
carrying status 401 and the retry detail. -/
theorem C2_retry_once_witness :
    (makeRequest (T := Nat) { accessToken := none, tokenExpiresAt := 0 } 0
        (Except.ok ("a", 3600)) (Except.ok ("b", 3600))
        (HttpOutcome.httpErr 401 (some "expired"))
        (HttpOutcome.httpErr 401 (some "still bad"))).throttledCalls = 2
    ∧ (makeRequest (T := Nat) { accessToken := none, tokenExpiresAt := 0 } 0
        (Except.ok ("a", 3600)) (Except.ok ("b", 3600))
        (HttpOutcome.httpErr 401 (some "expired"))
        (HttpOutcome.httpErr 401 (some "still bad"))).result
        = Except.error (ReqError.rethrownHttp 401 (some "still bad")) := by
  have h := C2_retry_once (T := Nat) { accessToken := none, tokenExpiresAt := 0 } 0
    (Except.ok ("a", 3600)) "a" "b" 3600 401 (some "expired")
    (HttpOutcome.httpErr 401 (some "still bad")) (Or.inl rfl) rfl
  exact ⟨h.1, (h.2.2.2.2 401 (some "still bad") rfl).1⟩

/-! Embedding of server/src/controllers/searchController.ts: the media
search dispatch and the combined result for media type all. -/

/-- Tag object carried by media results. -/
structure Tag where
  name : String
  deriving DecidableEq, Repr

/-- Image result record of the Openverse API. -/
structure ImageResult where
  id : String
  title : String
  creator : String
  creator_url : String
  tags : List Tag
  url : String
  thumbnail : String
  source : String
  license : String
  license_version : String
  license_url : String
  foreign_landing_url : String
  detail_url : String
  related_url : String
  width : Int
  height : Int
  attribution : String
  filesize : Int
  filetype : String
  deriving DecidableEq, Repr

/-- Audio result record of the Openverse API. -/
structure AudioResult where
  id : String
  title : String
  creator : String
  creator_url : String
  tags : List Tag
  url : String
  thumbnail : String
  source : String
  license : String
  license_version : String
  license_url : String
  foreign_landing_url : String
  detail_url : String
  related_url : String
  duration : Int
  bit_rate : Int
  sample_rate : Int
  genres : List String
  waveform : String
  attribution : String
  filesize : Int
  filetype : String
  deriving DecidableEq, Repr

/-- Search result envelope of the Openverse API. -/
structure SearchResult (T : Type) where
  result_count : Nat
  page_count : Nat
  page_size : Nat
  page : Nat
  results : List T
  deriving DecidableEq, Repr

/-- Combined result the searchMedia handler builds for media type all:
result_count is the sum of both counts, page_count the maximum of both
page counts, and results the image results followed by the audio results
by plain array concatenation. -/
def combineResults (img : SearchResult ImageResult) (aud : SearchResult AudioResult)
    (page pageSize : Nat) : SearchResult (ImageResult ⊕ AudioResult) :=
  { result_count := img.result_count + aud.result_count
    page_count := max img.page_count aud.page_count
    page_size := pageSize
    page := page
    results := img.results.map Sum.inl ++ aud.results.map Sum.inr }

/-- What the searchMedia handler answers for each media type. -/
inductive SearchOutcome where
  | imageOnly (r : SearchResult ImageResult)
  | audioOnly (r : SearchResult AudioResult)
  | combined (r : SearchResult (ImageResult ⊕ AudioResult))
  deriving DecidableEq, Repr

/-- Embedding of the mediaType switch of searchMedia: case image searches
images only, case audio searches audio only, and case all together with
the default case searches both and combines. img and aud are what the two
upstream searches would answer. -/
def searchMediaDispatch (mediaType : String) (img : SearchResult ImageResult)
    (aud : SearchResult AudioResult) (page pageSize : Nat) : SearchOutcome :=
  if mediaType == "image" then SearchOutcome.imageOnly img
  else if mediaType == "audio" then SearchOutcome.audioOnly aud
  else SearchOutcome.combined (combineResults img aud page pageSize)

/-- C3: for media type all, searchMedia returns the combined result whose
result_count is the sum of the image and audio counts, whose page_count
is the maximum of the two page counts, and whose results array is the
image results followed by the audio results by simple concatenation. -/
theorem C3_merge_all (img : SearchResult ImageResult) (aud : SearchResult AudioResult)
    (page pageSize : Nat) :
    searchMediaDispatch "all" img aud page pageSize
      = SearchOutcome.combined (combineResults img aud page pageSize)
    ∧ (combineResults img aud page pageSize).result_count
      = img.result_count + aud.result_count
    ∧ (combineResults img aud page pageSize).page_count
      = max img.page_count aud.page_count
    ∧ (combineResults img aud page pageSize).results
      = img.results.map Sum.inl ++ aud.results.map Sum.inr :=
  ⟨rfl, rfl, rfl, rfl⟩

/-- C10: every media type other than image and audio, video and any
unrecognized string included, is handled by the default switch case and
therefore behaves exactly like all: both searches are issued and the
combined result is returned. -/
theorem C10_default_mediatype (mediaType : String) (img : SearchResult ImageResult)
    (aud : SearchResult AudioResult) (page pageSize : Nat)
    (hImg : mediaType ≠ "image") (hAud : mediaType ≠ "audio") :
    searchMediaDispatch mediaType img aud page pageSize
      = SearchOutcome.combined (combineResults img aud page pageSize)
    ∧ searchMediaDispatch mediaType img aud page pageSize
      = searchMediaDispatch "all" img aud page pageSize := by
  constructor <;> simp [searchMediaDispatch, hImg, hAud]

/-- Witness for C10 at media type video with concrete result sets. -/
theorem C10_default_mediatype_witness :
    searchMediaDispatch "video"
        { result_count := 5, page_count := 2, page_size := 20, page := 1, results := [] }
        { result_count := 3, page_count := 1, page_size := 20, page := 1, results := [] }
        1 20
      = SearchOutcome.combined (combineResults
          { result_count := 5, page_count := 2, page_size := 20, page := 1, results := [] }
          { result_count := 3, page_count := 1, page_size := 20, page := 1, results := [] }
          1 20) :=
  (C10_default_mediatype "video"
    { result_count := 5, page_count := 2, page_size := 20, page := 1, results := [] }
    { result_count := 3, page_count := 1, page_size := 20, page := 1, results := [] }
    1 20 (by decide) (by decide)).1

/-! Embedding of the search history operations of searchController.ts.
The database table search_histories is modelled as a list of rows and
the authenticated caller (req.user) as an optional user id. -/

/-- Row of the search_histories table. -/
structure HistoryRow where
  id : String
  userId : String
  query : String
  filters : List (String × String)
  mediaType : String
  resultCount : Nat
  createdAt : Int
  deriving DecidableEq, Repr

/-- Outcome of deleteSearchHistoryItem: 401 without a caller, 404 when no
row of the caller has the requested id, success otherwise. -/
inductive DeleteItemOutcome where
  | unauthenticated
  | notFound
  | deleted
  deriving DecidableEq, Repr

/-- Embedding of deleteSearchHistoryItem: requires authentication, runs
SearchHistory.findOne with a where clause on both the record id and the
caller id, answers 404 when nothing matches, and otherwise destroys the
found row (deletion by its primary key). Returns the outcome and the
table afterwards. -/
def deleteSearchHistoryItem (user : Option String) (rid : String)
    (store : List HistoryRow) : DeleteItemOutcome × List HistoryRow :=
  match user with
  | none => (DeleteItemOutcome.unauthenticated, store)
  | some uid =>
    match store.find? (fun r => r.id == rid && r.userId == uid) with
    | none => (DeleteItemOutcome.notFound, store)
    | some item =>
        (DeleteItemOutcome.deleted, store.filter (fun r => !(r.id == item.id)))

/-- Outcome of clearSearchHistory. -/
inductive ClearOutcome where
  | unauthenticated
  | cleared
  deriving DecidableEq, Repr

/-- Embedding of clearSearchHistory: requires authentication and runs
SearchHistory.destroy with a where clause on the caller id, removing
every row owned by the caller. -/
def clearSearchHistory (user : Option String) (store : List HistoryRow) :
    ClearOutcome × List HistoryRow :=
  match user with
  | none => (ClearOutcome.unauthenticated, store)
  | some uid => (ClearOutcome.cleared, store.filter (fun r => !(r.userId == uid)))

/-- Embedding of getSearchHistory: requires authentication and runs
findAndCountAll over the rows of the caller, ordered by createdAt
descending, with offset (page - 1) * pageSize and limit pageSize.
Returns the total count of matching rows and the returned page. -/
def getSearchHistory (user : Option String) (page pageSize : Nat)
    (store : List HistoryRow) : Option (Nat × List HistoryRow) :=
  match user with
  | none => none
  | some uid =>
    let matching := store.filter (fun r => r.userId == uid)
    let ordered := matching.mergeSort (fun x y => decide (y.createdAt ≤ x.createdAt))
    some (matching.length, (ordered.drop ((page - 1) * pageSize)).take pageSize)

/-- C4: with distinct row ids (the primary key constraint), the single
record delete and the bulk clear for user a only ever remove rows owned
by a; the single record delete answers notFound and leaves the table
unchanged whenever no row with the requested id belongs to a (the row is
absent or owned by someone else); and fetching history for a returns
only rows owned by a. -/
theorem C4_history_privacy (a : String) (store : List HistoryRow)
    (hnd : (store.map HistoryRow.id).Nodup) :
    (∀ rid r, r ∈ store → r ∉ (deleteSearchHistoryItem (some a) rid store).2 →
      r.userId = a)
    ∧ (∀ rid, (¬ ∃ r ∈ store, r.id = rid ∧ r.userId = a) →
        deleteSearchHistoryItem (some a) rid store = (DeleteItemOutcome.notFound, store))
    ∧ (∀ r, r ∈ store → r ∉ (clearSearchHistory (some a) store).2 → r.userId = a)
    ∧ (∀ page pageSize total rows,
        getSearchHistory (some a) page pageSize store = some (total, rows) →
        ∀ r, r ∈ rows → r.userId = a) := by
  refine ⟨?_, ?_, ?_, ?_⟩
  · intro rid r hr hnot
    simp only [deleteSearchHistoryItem] at hnot
    cases hfind : store.find? (fun x => x.id == rid && x.userId == a) with
    | none =>
        rw [hfind] at hnot
        exact absurd hr hnot
    | some item =>
        rw [hfind] at hnot
        simp only [List.mem_filter, hr, true_and, Bool.not_eq_true',
          beq_eq_false_iff_ne, ne_eq, not_not] at hnot
        have hitemMem : item ∈ store := List.mem_of_find?_eq_some hfind
        have hpred := List.find?_some hfind
        have hreq : r = item :=
          List.inj_on_of_nodup_map hnd hr hitemMem hnot
        subst hreq
        simp only [Bool.and_eq_true, beq_iff_eq] at hpred
        exact hpred.2
  · intro rid hne
    simp only [deleteSearchHistoryItem]
    have hfind : store.find? (fun x => x.id == rid && x.userId == a) = none := by
      rw [List.find?_eq_none]
      intro x hx hpx
      simp only [Bool.and_eq_true, beq_iff_eq] at hpx
      exact hne ⟨x, hx, hpx.1, hpx.2⟩
    rw [hfind]
  · intro r hr hnot
    simp only [clearSearchHistory, List.mem_filter, hr, true_and, Bool.not_eq_true',
      beq_eq_false_iff_ne, ne_eq, not_not] at hnot
    exact hnot
  · intro page pageSize total rows hget r hr
    simp only [getSearchHistory, Option.some.injEq, Prod.mk.injEq] at hget
    rw [← hget.2] at hr
    have h1 : r ∈ (store.filter (fun x => x.userId == a)).mergeSort
        (fun x y => decide (y.createdAt ≤ x.createdAt)) :=
      List.drop_subset _ _ (List.take_subset _ _ hr)
    have h2 : r ∈ store.filter (fun x => x.userId == a) :=
      List.mem_mergeSort.mp h1
    have h3 := (List.mem_filter.mp h2).2
    exact (beq_iff_eq).mp h3

/-- Witness for C4: with a table holding one row of user a and one row of
user b, user a asking to delete the row of user b gets notFound and the
table is unchanged. -/
theorem C4_history_privacy_witness :
    deleteSearchHistoryItem (some "a") "r2"
        [{ id := "r1", userId := "a", query := "cats", filters := [],
           mediaType := "all", resultCount := 5, createdAt := 10 },
         { id := "r2", userId := "b", query := "dogs", filters := [],
           mediaType := "image", resultCount := 3, createdAt := 20 }]
      = (DeleteItemOutcome.notFound,
         [{ id := "r1", userId := "a", query := "cats", filters := [],
            mediaType := "all", resultCount := 5, createdAt := 10 },
          { id := "r2", userId := "b", query := "dogs", filters := [],
            mediaType := "image", resultCount := 3, createdAt := 20 }]) := by
  have h := C4_history_privacy "a"
    [{ id := "r1", userId := "a", query := "cats", filters := [],
       mediaType := "all", resultCount := 5, createdAt := 10 },
     { id := "r2", userId := "b", query := "dogs", filters := [],
       mediaType := "image", resultCount := 3, createdAt := 20 }]
    (by decide)
  exact h.2.1 "r2" (by decide)

/-! Embedding of server/src/models/User.ts and of authController.ts. The
bcryptjs library is an external collaborator and is modelled by its
documented contract: compare succeeds exactly on the plaintext the hash
was produced from, and fails against a value that is not a hash. -/

/-- Value held by the password column: the plaintext as handed to create
(before the hook runs, or when the hook skips a falsy value), or a
bcrypt hash of a plaintext produced with a salt. -/
inductive StoredPassword where
  | plain (p : String)
  | hashed (salt : Nat) (p : String)
  deriving DecidableEq, Repr

/-- Model of bcrypt.hash applied with a generated salt. -/
def bcryptHash (salt : Nat) (p : String) : StoredPassword :=
  StoredPassword.hashed salt p

/-- Model of the bcrypt.compare contract: it recognises exactly the
plaintext the stored hash was built from, and always fails when the
stored value is not a hash. -/
def bcryptCompare (candidate : String) (stored : StoredPassword) : Bool :=
  match stored with
  | StoredPassword.hashed _ p => candidate == p
  | StoredPassword.plain _ => false

/-- Row of the users table. -/
structure UserRow where
  id : String
  username : String
  email : String
  password : StoredPassword
  firstName : Option String
  lastName : Option String
  isActive : Bool
  lastLogin : Option Int
  createdAt : Int
  updatedAt : Int
  deriving DecidableEq, Repr

/-- Embedding of User.create together with the beforeCreate hook: the row
is assembled from the registration attributes with isActive defaulting to
true, and the hook replaces a truthy (nonempty) password by its hash with
a fresh salt, leaving a falsy one untouched. -/
def createUser (newId : String) (username email password : String)
    (firstName lastName : Option String) (now : Int) (salt : Nat) : UserRow :=
  let stored := if password == "" then StoredPassword.plain password
                else bcryptHash salt password
  { id := newId, username := username, email := email, password := stored,
    firstName := firstName, lastName := lastName, isActive := true,
    lastLogin := none, createdAt := now, updatedAt := now }

/-- Embedding of user.update with a changed password, through the
beforeUpdate hook: a changed password is rehashed with a fresh salt. -/
def updatePassword (u : UserRow) (newPassword : String) (salt : Nat)
    (now : Int) : UserRow :=
  { u with password := bcryptHash salt newPassword, updatedAt := now }

/-- Embedding of User.comparePassword: bcrypt.compare of the candidate
against the stored password value. -/
def comparePassword (u : UserRow) (candidate : String) : Bool :=
  bcryptCompare candidate u.password

/-- Model of jwt.sign as used by generateToken: a credential binding the
user id with a seven day validity window. -/
structure Jwt where
  payloadId : String
  expiresInDays : Nat
  deriving DecidableEq, Repr

/-- Embedding of generateToken. -/
def generateToken (userId : String) : Jwt :=
  { payloadId := userId, expiresInDays := 7 }

/-- JSON values appearing in serialized response bodies. -/
inductive JsonValue where
  | str (s : String)
  | bool (b : Bool)
  | num (n : Int)
  | nullVal
  | pw (p : StoredPassword)
  | jwt (t : Jwt)
  | obj (fields : List (String × JsonValue))
  deriving Repr

/-- Optional string rendered as JSON. -/
def jsonOfOptStr : Option String → JsonValue
  | none => JsonValue.nullVal
  | some s => JsonValue.str s

/-- Optional timestamp rendered as JSON. -/
def jsonOfOptNum : Option Int → JsonValue
  | none => JsonValue.nullVal
  | some n => JsonValue.num n

/-- The attribute values this.get() yields for a user row, keyed by field
name, the password included. -/
def User.get (u : UserRow) : List (String × JsonValue) :=
  [("id", JsonValue.str u.id),
   ("username", JsonValue.str u.username),
   ("email", JsonValue.str u.email),
   ("password", JsonValue.pw u.password),
   ("firstName", jsonOfOptStr u.firstName),
   ("lastName", jsonOfOptStr u.lastName),
   ("isActive", JsonValue.bool u.isActive),
   ("lastLogin", jsonOfOptNum u.lastLogin),
   ("createdAt", JsonValue.num u.createdAt),
   ("updatedAt", JsonValue.num u.updatedAt)]

/-- Embedding of User.toJSON: a copy of the attribute values with the
password property deleted. -/
def User.toJSON (u : UserRow) : List (String × JsonValue) :=
  (User.get u).filter (fun kv => !(kv.1 == "password"))

/-- Body of the login response: the signed token and the serialized
user. -/
def loginResponseBody (token : Jwt) (u : UserRow) : List (String × JsonValue) :=
  [("token", JsonValue.jwt token), ("user", JsonValue.obj (User.toJSON u))]

/-- Body of the 201 register response: the signed token and the
serialized user. -/
def registerResponseBody (token : Jwt) (u : UserRow) : List (String × JsonValue) :=
  [("token", JsonValue.jwt token), ("user", JsonValue.obj (User.toJSON u))]

/-- Body of the current user response. -/
def currentUserResponseBody (u : UserRow) : List (String × JsonValue) :=
  [("user", JsonValue.obj (User.toJSON u))]

/-- Outcome of the register handler. -/
inductive RegisterOutcome where
  | validationFailed
  | serverError
  | userExists
  | created (body : List (String × JsonValue))
  deriving Repr

/-- HTTP status of each register outcome. -/
def RegisterOutcome.statusOf : RegisterOutcome → Nat
  | validationFailed => 400
  | serverError => 500
  | userExists => 400
  | created _ => 201

/-- Operator symbols of the sequelize Op namespace the handler wants. -/
inductive SequelizeOp where
  | orOp
  deriving DecidableEq, Repr

/-- Value of the Op property read on the sequelize instance imported from
config/database. Op is a static member of the Sequelize class and a named
module export; it is not placed on instances, so the read yields
undefined. -/
def sequelizeInstanceOp : Option SequelizeOp := none

/-- Embedding of the register handler: failed express validation answers
400. Building the where clause then reads the or member of sequelize.Op;
since Op is undefined on the instance, this throws a TypeError inside the
try block and the catch answers 500 Server error before findOne or create
can run. Had the Op read succeeded, findOne with an or clause over email
and username would answer 400 on a hit writing nothing, and otherwise
create the user through the beforeCreate hook, issue a token, stamp
lastLogin and answer 201. Returns the outcome and the users table
afterwards. -/
def register (store : List UserRow) (validationOk : Bool)
    (username email password : String) (firstName lastName : Option String)
    (newId : String) (salt : Nat) (now : Int) : RegisterOutcome × List UserRow :=
  if !validationOk then (RegisterOutcome.validationFailed, store)
  else
    match sequelizeInstanceOp with
    | none => (RegisterOutcome.serverError, store)
    | some _ =>
      match store.find? (fun u => u.email == email || u.username == username) with
      | some _ => (RegisterOutcome.userExists, store)
      | none =>
        let user := createUser newId username email password firstName lastName now salt
        let token := generateToken user.id
        let user2 := { user with lastLogin := some now, updatedAt := now }
        (RegisterOutcome.created (registerResponseBody token user2), store ++ [user2])

/-- C5 names a code bug: the claimed 400 ValidationError for a duplicate
email or username is unreachable. Reading the or member of Op on the
sequelize instance throws a TypeError, so every registration that passes
express validation is answered 500 Server error with the users table
unchanged; a duplicate registration is never answered 400. This theorem
evaluates the handler on arbitrary input, the failing duplicate input
included. -/
theorem C5_register_server_error (store : List UserRow)
    (username email password : String) (firstName lastName : Option String)
    (newId : String) (salt : Nat) (now : Int) :
    register store true username email password firstName lastName newId salt now
      = (RegisterOutcome.serverError, store)
    ∧ RegisterOutcome.statusOf
        (register store true username email password firstName lastName newId salt now).1
      = 500
    ∧ RegisterOutcome.statusOf
        (register store true username email password firstName lastName newId salt now).1
      ≠ 400 := by
  refine ⟨rfl, rfl, ?_⟩
  show RegisterOutcome.statusOf RegisterOutcome.serverError ≠ 400
  decide

/-- C6: a user created with a nonempty password P verifies P and fails
every other candidate; the stored value is the bcrypt hash, not the
plaintext; and a password change rehashes, after which the new password
verifies and every other candidate fails. -/
theorem C6_password_roundtrip (newId username email P Pbad : String)
    (firstName lastName : Option String) (now : Int) (salt : Nat)
    (hP : P ≠ "") (hne : Pbad ≠ P) :
    comparePassword (createUser newId username email P firstName lastName now salt) P = true
    ∧ comparePassword (createUser newId username email P firstName lastName now salt) Pbad
      = false
    ∧ (createUser newId username email P firstName lastName now salt).password
      = bcryptHash salt P
    ∧ (createUser newId username email P firstName lastName now salt).password
      ≠ StoredPassword.plain P
    ∧ (∀ Q salt2 now2, comparePassword
        (updatePassword (createUser newId username email P firstName lastName now salt)
          Q salt2 now2) Q = true)
    ∧ (∀ Q R salt2 now2, R ≠ Q → comparePassword
        (updatePassword (createUser newId username email P firstName lastName now salt)
          Q salt2 now2) R = false) := by
  have hP' : (P == "") = false := by simpa using hP
  refine ⟨?_, ?_, ?_, ?_, ?_, ?_⟩
  · simp [comparePassword, createUser, bcryptCompare, bcryptHash, hP']
  · simp [comparePassword, createUser, bcryptCompare, bcryptHash, hP', hne]
  · simp [createUser, hP']
  · simp [createUser, bcryptHash, hP']
  · intro Q salt2 now2
    simp [comparePassword, updatePassword, bcryptCompare, bcryptHash]
  · intro Q R salt2 now2 hRQ
    simp [comparePassword, updatePassword, bcryptCompare, bcryptHash, hRQ]

/-- Witness for C6: a user created with password hunter2 verifies
hunter2, fails hunter3, and stores the hash. -/
theorem C6_password_roundtrip_witness :
    comparePassword (createUser "u1" "alice" "a@x.com" "hunter2" none none 0 7)
      "hunter2" = true
    ∧ comparePassword (createUser "u1" "alice" "a@x.com" "hunter2" none none 0 7)
      "hunter3" = false
    ∧ (createUser "u1" "alice" "a@x.com" "hunter2" none none 0 7).password
      = bcryptHash 7 "hunter2" := by
  have h := C6_password_roundtrip "u1" "alice" "a@x.com" "hunter2" "hunter3"
    none none 0 7 (by decide) (by decide)
  exact ⟨h.1, h.2.1, h.2.2.1⟩

/-- C9: the serialized representation User.toJSON never contains the
password key, and the login, register and current user response bodies
embed exactly that serialization as their user field, so the stored
password is never serialized to clients. -/
theorem C9_password_not_serialized (u : UserRow) (token : Jwt) :
    "password" ∉ (User.toJSON u).map Prod.fst
    ∧ List.lookup "user" (loginResponseBody token u)
      = some (JsonValue.obj (User.toJSON u))
    ∧ List.lookup "user" (registerResponseBody token u)
      = some (JsonValue.obj (User.toJSON u))
    ∧ List.lookup "user" (currentUserResponseBody u)
      = some (JsonValue.obj (User.toJSON u)) := by
  have hkeys : (User.toJSON u).map Prod.fst
      = ["id", "username", "email", "firstName", "lastName", "isActive",
         "lastLogin", "createdAt", "updatedAt"] := rfl
  refine ⟨?_, rfl, rfl, rfl⟩
  rw [hkeys]
  decide

/-! Embedding of the authenticate middleware of authMiddleware.ts. The
jwt.verify call is a parameter telling, for a presented token, whether it
decodes to a payload id, raises a JsonWebTokenError, or raises some other
exception. -/

/-- Result of jwt.verify inside the middleware. -/
inductive JwtVerify where
  | valid (id : String)
  | jwtError
  | otherError
  deriving DecidableEq, Repr

/-- Response of the authenticate middleware: a rejection with an HTTP
status and message, or passing the request on with the user attached. -/
inductive AuthResult where
  | reject (status : Nat) (message : String)
  | proceed (user : UserRow)
  deriving DecidableEq, Repr

/-- HTTP status of a middleware rejection, none when the request passes
on. -/
def AuthResult.statusOf : AuthResult → Option Nat
  | reject s _ => some s
  | proceed _ => none

/-- JS startsWith over the character lists of the two strings. -/
def jsStartsWith (s p : String) : Bool :=
  p.data.isPrefixOf s.data

/-- Splitting a character list at every occurrence of a separator
character, accumulator based, as JS split with a one character
separator does. -/
def splitChar (sep : Char) : List Char → List Char → List (List Char)
  | [], acc => [acc.reverse]
  | c :: cs, acc =>
      if c == sep then acc.reverse :: splitChar sep cs []
      else splitChar sep cs (c :: acc)

/-- JS split with a one character separator. -/
def jsSplit (sep : Char) (s : String) : List String :=
  (splitChar sep s.data []).map (fun cs => ⟨cs⟩)

/-- Token taken from the Authorization header: the header split on the
space character, index 1. -/
def headerToken (h : String) : Option String :=
  (jsSplit ' ' h)[1]?

/-- Embedding of authenticate: a missing or non Bearer header answers 401
Authentication required; a missing or empty token part answers 401
Invalid token format; a JsonWebTokenError answers 401 Invalid token and
any other exception 500; a decoded id that matches no user answers 401
User not found; a matched but inactive user answers 403 Account is
disabled; otherwise the user is attached and the request passes on. -/
def authenticate (users : List UserRow) (authHeader : Option String)
    (verify : String → JwtVerify) : AuthResult :=
  match authHeader with
  | none => AuthResult.reject 401 "Authentication required"
  | some h =>
    if !(jsStartsWith h "Bearer ") then AuthResult.reject 401 "Authentication required"
    else
      match headerToken h with
      | none => AuthResult.reject 401 "Invalid token format"
      | some t =>
        if t == "" then AuthResult.reject 401 "Invalid token format"
        else
          match verify t with
          | JwtVerify.jwtError => AuthResult.reject 401 "Invalid token"
          | JwtVerify.otherError => AuthResult.reject 500 "Authentication error"
          | JwtVerify.valid decodedId =>
            match users.find? (fun u => u.id == decodedId) with
            | none => AuthResult.reject 401 "User not found"
            | some u =>
              if !u.isActive then AuthResult.reject 403 "Account is disabled"
              else AuthResult.proceed u

/-- Counterexample to C7 as stated: a valid bearer token referencing an
existing but deactivated user is rejected with status 403, not 401. -/
theorem C7_deactivated_counterexample :
    authenticate
        [{ id := "u1", username := "alice", email := "a@x.com",
           password := StoredPassword.hashed 7 "pw", firstName := none,
           lastName := none, isActive := false, lastLogin := none,
           createdAt := 0, updatedAt := 0 }]
        (some "Bearer tok") (fun _ => JwtVerify.valid "u1")
      = AuthResult.reject 403 "Account is disabled"
    ∧ AuthResult.statusOf (authenticate
        [{ id := "u1", username := "alice", email := "a@x.com",
           password := StoredPassword.hashed 7 "pw", firstName := none,
           lastName := none, isActive := false, lastLogin := none,
           createdAt := 0, updatedAt := 0 }]
        (some "Bearer tok") (fun _ => JwtVerify.valid "u1"))
      ≠ some 401 := by
  constructor
  · rfl
  · decide

/-- C7 as amended: the required middleware rejects with 401 when no valid
bearer credential is presented (missing or non Bearer header, empty
token, JsonWebTokenError) and when the referenced user no longer exists;
it rejects a deactivated user with 403; otherwise it attaches the user
and passes the request on. -/
theorem C7_required_auth_amended (users : List UserRow)
    (authHeader : Option String) (verify : String → JwtVerify) :
    (authHeader = none →
      authenticate users authHeader verify
        = AuthResult.reject 401 "Authentication required")
    ∧ (∀ h, authHeader = some h → jsStartsWith h "Bearer " = false →
        authenticate users authHeader verify
          = AuthResult.reject 401 "Authentication required")
    ∧ (∀ h, authHeader = some h → jsStartsWith h "Bearer " = true →
        headerToken h = some "" →
        authenticate users authHeader verify
          = AuthResult.reject 401 "Invalid token format")
    ∧ (∀ h t, authHeader = some h → jsStartsWith h "Bearer " = true →
        headerToken h = some t → t ≠ "" → verify t = JwtVerify.jwtError →
        authenticate users authHeader verify
          = AuthResult.reject 401 "Invalid token")
    ∧ (∀ h t decodedId, authHeader = some h → jsStartsWith h "Bearer " = true →
        headerToken h = some t → t ≠ "" → verify t = JwtVerify.valid decodedId →
        users.find? (fun u => u.id == decodedId) = none →
        authenticate users authHeader verify
          = AuthResult.reject 401 "User not found")
    ∧ (∀ h t decodedId u, authHeader = some h → jsStartsWith h "Bearer " = true →
        headerToken h = some t → t ≠ "" → verify t = JwtVerify.valid decodedId →
        users.find? (fun x => x.id == decodedId) = some u → u.isActive = false →
        authenticate users authHeader verify
          = AuthResult.reject 403 "Account is disabled")
    ∧ (∀ h t decodedId u, authHeader = some h → jsStartsWith h "Bearer " = true →
        headerToken h = some t → t ≠ "" → verify t = JwtVerify.valid decodedId →
        users.find? (fun x => x.id == decodedId) = some u → u.isActive = true →
        authenticate users authHeader verify = AuthResult.proceed u) := by
  refine ⟨?_, ?_, ?_, ?_, ?_, ?_, ?_⟩
  · intro hh
    subst hh
    rfl
  · intro h hh hpre
    subst hh
    simp [authenticate, hpre]
  · intro h hh hpre htok
    subst hh
    simp [authenticate, hpre, htok]
  · intro h t hh hpre htok ht hv
    subst hh
    have ht' : (t == "") = false := by simpa using ht
    simp [authenticate, hpre, htok, ht', hv]
  · intro h t decodedId hh hpre htok ht hv hfind
    subst hh
    have ht' : (t == "") = false := by simpa using ht
    simp [authenticate, hpre, htok, ht', hv, hfind]
  · intro h t decodedId u hh hpre htok ht hv hfind hact
    subst hh
    have ht' : (t == "") = false := by simpa using ht
    simp [authenticate, hpre, htok, ht', hv, hfind, hact]
  · intro h t decodedId u hh hpre htok ht hv hfind hact
    subst hh
    have ht' : (t == "") = false := by simpa using ht
    simp [authenticate, hpre, htok, ht', hv, hfind, hact]

/-- Witness for the amended C7 at concrete inputs: a missing header is
rejected with 401, and a valid token for an active stored user passes the
request on with that user attached. -/
theorem C7_required_auth_amended_witness :
    authenticate [] none (fun _ => JwtVerify.jwtError)
      = AuthResult.reject 401 "Authentication required"
    ∧ authenticate
        [{ id := "u1", username := "alice", email := "a@x.com",
           password := StoredPassword.hashed 7 "pw", firstName := none,
           lastName := none, isActive := true, lastLogin := none,
           createdAt := 0, updatedAt := 0 }]
        (some "Bearer tok") (fun _ => JwtVerify.valid "u1")
      = AuthResult.proceed
          { id := "u1", username := "alice", email := "a@x.com",
            password := StoredPassword.hashed 7 "pw", firstName := none,
            lastName := none, isActive := true, lastLogin := none,
            createdAt := 0, updatedAt := 0 } := by
  constructor
  · exact (C7_required_auth_amended [] none (fun _ => JwtVerify.jwtError)).1 rfl
  · exact (C7_required_auth_amended
      [{ id := "u1", username := "alice", email := "a@x.com",
         password := StoredPassword.hashed 7 "pw", firstName := none,
         lastName := none, isActive := true, lastLogin := none,
         createdAt := 0, updatedAt := 0 }]
      (some "Bearer tok") (fun _ => JwtVerify.valid "u1")).2.2.2.2.2.2
      "Bearer tok" "tok" "u1"
      { id := "u1", username := "alice", email := "a@x.com",
        password := StoredPassword.hashed 7 "pw", firstName := none,
        lastName := none, isActive := true, lastLogin := none,
        createdAt := 0, updatedAt := 0 }
      rfl rfl rfl (by decide) rfl rfl rfl

end MediaDev
